import Mathlib

/-
Verification development for the gefran_pid repository (src/gefran_pid/pid.py,
src/gefran_pid/errors.py): a driver for a Gefran PID temperature controller
over Modbus RTU.  The Python source is shallowly embedded below: pure
arithmetic becomes functions over ℚ/ℤ/ℕ, the Modbus master becomes an explicit
state with a log of executed operations, exceptions become Except, and the
two unbounded loops (Pid.run and the while-loop of Pid.wait_until_stable)
become fuel-indexed recursive functions over an abstract truncated-seconds
clock and an abstract stream of device process values.
-/

namespace GefranPid

/-- Register addresses, from pid.py lines 47-49. -/
def ADDRESS_PV : ℕ := 0

/-- Setpoint register address (pid.py line 48). -/
def ADDRESS_SP : ℕ := 55

/-- Decimal-point (scale) register address (pid.py line 49). -/
def ADDRESS_DECP : ℕ := 136

/-- Python's builtin round (banker's rounding, round-half-to-even), modelled
on ℚ.  Used by write_setpoint (pid.py line 231): round(value * 10 ** d). -/
def pyRound (q : ℚ) : ℤ :=
  if q - (⌊q⌋ : ℚ) < 1/2 then ⌊q⌋
  else if (1/2 : ℚ) < q - (⌊q⌋ : ℚ) then ⌊q⌋ + 1
  else if ⌊q⌋ % 2 = 0 then ⌊q⌋ else ⌊q⌋ + 1

/-- Register Codec, raw-to-physical direction: raw / 10 ** d, as in
read_setpoint (pid.py line 227) and read_process_value (line 239). -/
def toPhysical (raw : ℕ) (d : ℕ) : ℚ := (raw : ℚ) / 10 ^ d

/-- Register Codec, physical-to-raw direction: round(value * 10 ** d), as in
write_setpoint (pid.py line 231). -/
def toRaw (value : ℚ) (d : ℕ) : ℤ := pyRound (value * 10 ^ d)

/-- Python fixed-point formatting with two decimals, f-string spec .2f,
modelled exactly on ℚ (round half to even at the second decimal). Used by
write_setpoint (pid.py line 233) for the command text. -/
def fmt_fixed2 (q : ℚ) : String :=
  if pyRound (q * 100) < 0 then
    "-" ++ toString ((pyRound (q * 100)).natAbs / 100) ++ "." ++
      (if (pyRound (q * 100)).natAbs % 100 < 10 then "0" else "") ++
      toString ((pyRound (q * 100)).natAbs % 100)
  else
    toString ((pyRound (q * 100)).natAbs / 100) ++ "." ++
      (if (pyRound (q * 100)).natAbs % 100 < 10 then "0" else "") ++
      toString ((pyRound (q * 100)).natAbs % 100)

/-- Pid.Commands.set_setpoint (pid.py line 45). -/
def Commands_set_setpoint : String := "Set setpoint"

/-- Pid.Commands.wait (pid.py line 44). -/
def Commands_wait : String := "Wait"

/-- The Modbus RTU master as seen through modbus.execute: current register
contents, plus, for each address, whether an execute call on it raises a
transport exception (modelled as an error message). -/
structure MBState where
  regs : ℕ → ℕ
  readFail : ℕ → Option String
  writeFail : ℕ → Option String

/-- One observable primitive action of a Pid method: acquiring/releasing
self._lock (pid.py line 79), a register read/write through modbus.execute,
or appending one command record via _register_command (pid.py lines 241-246). -/
inductive PidEvent where
  | lockAcquire : PidEvent
  | lockRelease : PidEvent
  | regRead (addr : ℕ) : PidEvent
  | regWrite (addr : ℕ) (values : List ℤ) : PidEvent
  | command (text : String) : PidEvent
deriving DecidableEq, Repr

/-- The state a Pid method threads: the Modbus master plus the log of
primitive events the method has performed, in program order. -/
structure PidState where
  mb : MBState
  events : List PidEvent

/-- One modbus.execute call with READ_INPUT_REGISTERS (count 1): returns the
register content, or raises the transport exception configured in MBState. -/
def executeRead (st : PidState) (addr : ℕ) : Except String (ℕ × PidState) :=
  match st.mb.readFail addr with
  | some e => Except.error e
  | none => Except.ok (st.mb.regs addr, { st with events := st.events ++ [PidEvent.regRead addr] })

/-- One modbus.execute call with WRITE_MULTIPLE_REGISTERS: logs the write,
or raises the transport exception configured in MBState. -/
def executeWrite (st : PidState) (addr : ℕ) (values : List ℤ) : Except String PidState :=
  match st.mb.writeFail addr with
  | some e => Except.error e
  | none => Except.ok { st with events := st.events ++ [PidEvent.regWrite addr values] }

/-- Pid._register_command (pid.py lines 241-246): appends exactly one record
to the command store.  The CSV flush it may perform is an external
persistence collaborator and is outside the modelled state. -/
def _register_command (st : PidState) (text : String) : PidState :=
  { st with events := st.events ++ [PidEvent.command text] }

/-- Everything a Pid public operation can raise: a GefranPidError
(errors.py, raised in connect/disconnect) or a raw, unwrapped transport
exception escaping from modbus.execute. -/
inductive PidError where
  | transport (e : String) : PidError
  | gefran (msg : String) : PidError
deriving DecidableEq, Repr

/-- Pid.read_setpoint (pid.py lines 224-227): read the decimal-point
register, read the setpoint register, return raw_sp / 10 ** raw_decp.
The method body has no try/except and acquires no lock: transport
exceptions propagate raw. -/
def read_setpoint (st : PidState) : Except PidError (ℚ × PidState) :=
  match executeRead st ADDRESS_DECP with
  | Except.error e => Except.error (PidError.transport e)
  | Except.ok (raw_decp, st1) =>
    match executeRead st1 ADDRESS_SP with
    | Except.error e => Except.error (PidError.transport e)
    | Except.ok (raw_sp, st2) => Except.ok ((raw_sp : ℚ) / 10 ^ raw_decp, st2)

/-- Pid.write_setpoint (pid.py lines 229-234): read the decimal-point
register, write round(value * 10 ** raw_decp) to the setpoint register, then
register the command "Set setpoint to {value:.2f}°C".  No try/except, no
lock. -/
def write_setpoint (st : PidState) (value : ℚ) : Except PidError PidState :=
  match executeRead st ADDRESS_DECP with
  | Except.error e => Except.error (PidError.transport e)
  | Except.ok (raw_decp, st1) =>
    match executeWrite st1 ADDRESS_SP [pyRound (value * 10 ^ raw_decp)] with
    | Except.error e => Except.error (PidError.transport e)
    | Except.ok st2 =>
      Except.ok ( _register_command st2
        (Commands_set_setpoint ++ " to " ++ fmt_fixed2 value ++ "°C"))

/-- Pid.read_process_value (pid.py lines 236-239): read the decimal-point
register, read the process-value register, return raw_pv / 10 ** raw_decp.
No try/except, no lock. -/
def read_process_value (st : PidState) : Except PidError (ℚ × PidState) :=
  match executeRead st ADDRESS_DECP with
  | Except.error e => Except.error (PidError.transport e)
  | Except.ok (raw_decp, st1) =>
    match executeRead st1 ADDRESS_PV with
    | Except.error e => Except.error (PidError.transport e)
    | Except.ok (raw_pv, st2) => Except.ok ((raw_pv : ℚ) / 10 ^ raw_decp, st2)

/-- Count of lock acquisitions in an event log. -/
def countLockAcquires (evs : List PidEvent) : ℕ :=
  (evs.filter fun e =>
    match e with
    | PidEvent.lockAcquire => true
    | _ => false).length

/-- True exactly when a result is a wrapped, domain-specific GefranPidError
(as opposed to a raw transport exception or a success). -/
def isGefran {α : Type} (r : Except PidError α) : Bool :=
  match r with
  | Except.error (PidError.gefran _) => true
  | _ => false

/-- One row of the temperature Sample Store (self.temp_data): its Time (s)
column entry and the two data columns written by get_temp_data
(pid.py lines 291-303). -/
structure Sample where
  time_s : ℚ
  pv : ℚ
  sp : ℚ
deriving DecidableEq, Repr

/-- TemporalData.tail n: the last n records of a column, or fewer if the
store has fewer (as used at pid.py lines 375-377). -/
def tail {α : Type} (n : ℕ) (l : List α) : List α := l.drop (l.length - n)

/-- Python's builtin abs on ℚ: -q for negative q, q otherwise. -/
def pyAbs (q : ℚ) : ℚ := if q < 0 then -q else q

/-- Pid.is_stable (pid.py lines 402-403):
all(abs(temp - setpoint) < tolerance for temp in temps).
The times argument is accepted and ignored, as in the source. -/
def is_stable (times : List ℚ) (temps : List ℚ) (tolerance : ℚ) (setpoint : ℚ) : Bool :=
  temps.all fun temp => decide (pyAbs (temp - setpoint) < tolerance)

/-- Pid.register_state (pid.py lines 305-310): append the freshly sampled
row, then save the CSV iff nrows % math.floor(save_interval / log_interval)
== 0 and save_log is True.  For non-negative ints, math.floor(a / b) is
Nat division a / b.  When that divisor is 0, Python's % raises
ZeroDivisionError (after the append); this is the Except.error outcome.
Returns the new store and whether the save checkpoint fired.  The sampled
row (obtained in the source through get_temp_data's device reads) is passed
in as the argument s. -/
def register_state (save_log : Bool) (save_interval log_interval : ℕ)
    (store : List Sample) (s : Sample) : Except String (List Sample × Bool) :=
  if save_interval / log_interval = 0 then Except.error "ZeroDivisionError"
  else Except.ok (store ++ [s],
    decide ((store ++ [s]).length % (save_interval / log_interval) = 0) && save_log)

/-- Pid.run (pid.py lines 312-317), the background polling loop: while
running, sleep log_interval seconds then register_state.  The cooperative
running flag is modelled by fuel (one unit per loop iteration for which the
flag is still set); pv k is the device's process value at iteration k and
sp its (constant) setpoint; the Time (s) value of the k-th appended row is
(k+1) * log_interval. -/
def run (save_log : Bool) (save_interval log_interval : ℕ) (pv : ℕ → ℚ) (sp : ℚ) :
    ℕ → ℕ → List Sample → Except String (List Sample)
  | 0, _, store => Except.ok store
  | fuel+1, k, store =>
    match register_state save_log save_interval log_interval store
        ⟨(((k+1) * log_interval : ℕ) : ℚ), pv k, sp⟩ with
    | Except.error e => Except.error e
    | Except.ok (st, _) => run save_log save_interval log_interval pv sp fuel (k+1) st

/-- The environment and arguments of one Pid.wait_until_stable call
(pid.py lines 334-403): the constructor configuration it reads, its n /
tolerance / timeout arguments, the optional custom stability function, and
the two external inputs of the loop: clock k, the truncated elapsed seconds
(current_time - start_time).seconds observed at the start of iteration k,
and pv k, the device process value sampled during iteration k (the device
setpoint is held in the setpoint field). -/
structure WaitCfg where
  save_log : Bool
  save_interval : ℕ
  log_interval : ℕ
  n : ℕ
  tolerance : ℚ
  timeout : Option ℚ
  clock : ℕ → ℕ
  pv : ℕ → ℚ
  setpoint : ℚ
  custom : Option (List ℚ → List ℚ → ℚ → Bool)

/-- The timeout test at pid.py lines 366-367: timeout is not None and
seconds_passed > timeout, with seconds_passed the integer-truncated
wall-clock delta. -/
def timeout_exceeded (cfg : WaitCfg) (k : ℕ) : Bool :=
  match cfg.timeout with
  | none => false
  | some t => decide (((cfg.clock k : ℕ) : ℚ) > t)

/-- The predicate dispatch at pid.py lines 381-393: the built-in is_stable
when no custom function is supplied, the custom function otherwise. -/
def stable_check (cfg : WaitCfg) (times temps : List ℚ) : Bool :=
  match cfg.custom with
  | none => is_stable times temps cfg.tolerance cfg.setpoint
  | some f => f times temps cfg.setpoint

/-- The while-True loop of Pid.wait_until_stable (pid.py lines 362-400),
with fuel bounding the number of iterations (none-result = fuel exhausted
with the loop still running).  Each iteration: timeout check (return false),
sleep + register_state (append one sample; ZeroDivisionError propagates),
take the last n times and temperatures, skip the predicate while the store
holds fewer than n rows, otherwise evaluate the predicate (the store length
at each evaluation is recorded in the evals accumulator) and return true
when it holds.  The pre-loop command record and the stop/restart of the
polling thread live outside the loop state modelled here. -/
def wait_until_stable (cfg : WaitCfg) :
    ℕ → ℕ → List Sample → List ℕ → Except String (Option Bool × List Sample × List ℕ)
  | 0, _, store, evals => Except.ok (none, store, evals)
  | fuel+1, k, store, evals =>
    if timeout_exceeded cfg k then Except.ok (some false, store, evals)
    else
      match register_state cfg.save_log cfg.save_interval cfg.log_interval store
          ⟨((cfg.clock k : ℕ) : ℚ), cfg.pv k, cfg.setpoint⟩ with
      | Except.error e => Except.error e
      | Except.ok (st, _) =>
        if ((tail cfg.n st).map Sample.time_s).length < cfg.n then
          wait_until_stable cfg fuel (k+1) st evals
        else if stable_check cfg ((tail cfg.n st).map Sample.time_s)
            ((tail cfg.n st).map Sample.pv) then
          Except.ok (some true, st, evals ++ [st.length])
        else
          wait_until_stable cfg fuel (k+1) st (evals ++ [st.length])

/-- The connection-lifecycle facet of a Pid object: whether the serial
transport is open, and how many atexit disconnect hooks have been
registered (atexit.register registers one more on every successful
connect, pid.py line 148). -/
structure Session where
  modbusOpen : Bool
  exitHooks : ℕ
deriving DecidableEq, Repr

/-- The session state at the start of Pid.__init__ (pid.py line 78:
self.modbus = None): transport not open, no exit hook registered. -/
def newSession : Session := ⟨false, 0⟩

/-- The GefranPidError message raised by Pid.connect (pid.py line 151). -/
def connectErrMsg : String :=
  "Could not connect to the PID controller, make sure the right port was selected"

/-- The GefranPidError message raised by Pid.disconnect (pid.py line 169). -/
def disconnectErrMsg : String := "Could not disconnect from the PID controller"

/-- Pid.connect (pid.py lines 133-151): open the transport and register an
atexit disconnect hook; any exception is caught and re-raised as a
GefranPidError with a user-facing message.  openOk abstracts whether the
underlying serial/modbus open raises. -/
def connect (s : Session) (openOk : Bool) : Except PidError Session :=
  if openOk then Except.ok { modbusOpen := true, exitHooks := s.exitHooks + 1 }
  else Except.error (PidError.gefran connectErrMsg)

/-- Pid.__init__ (pid.py lines 51-94): after initialising its fields the
constructor's last statement is self.connect() (line 94), so construction
itself opens the transport and registers the exit hook. -/
def initPid (openOk : Bool) : Except PidError Session := connect newSession openOk

/-- Pid.disconnect (pid.py lines 153-169), its transport facet: close the
transport; a close exception is caught and re-raised as a GefranPidError.
The store flushes it performs first go to the external persistence
collaborator.  closeOk abstracts whether modbus.close raises; the model
covers post-__init__ sessions, where self.modbus is not None. -/
def disconnect (s : Session) (closeOk : Bool) : Except PidError Session :=
  if closeOk then Except.ok { s with modbusOpen := false }
  else Except.error (PidError.gefran disconnectErrMsg)

/-- A healthy device for concrete runs: decimal-point register reads 1,
setpoint register 1855, process-value register 1999; no transport faults. -/
def okMB : MBState :=
  ⟨fun a => if a = ADDRESS_DECP then 1 else if a = ADDRESS_SP then 1855 else 1999,
   fun _ => none, fun _ => none⟩

/-- A Pid method entry state on the healthy device with an empty event log. -/
def okState : PidState := ⟨okMB, []⟩

/-- A faulty device: every modbus.execute read raises "modbus timeout". -/
def badMB : MBState := ⟨fun _ => 0, fun _ => some "modbus timeout", fun _ => none⟩

/-- A Pid method entry state on the faulty device. -/
def badState : PidState := ⟨badMB, []⟩

/-- The spec scenario for the stabilization timeout: timeout=10,
log_interval=5 (and save_interval=60, n=3, tolerance=1.5, setpoint=200.0,
the constructor defaults), a process value pinned far from the setpoint so
that stability is never reached, and a zero-overhead clock: the truncated
elapsed time at the k-th iteration boundary is exactly 5*k seconds. -/
def cfgTimeout : WaitCfg :=
  { save_log := false, save_interval := 60, log_interval := 5, n := 3,
    tolerance := 3/2, timeout := some 10, clock := fun k => 5 * k,
    pv := fun _ => 0, setpoint := 200, custom := none }

/-- A run that stabilizes: n=2, process value equal to the setpoint, no
timeout. -/
def cfgStable : WaitCfg :=
  { save_log := false, save_interval := 60, log_interval := 5, n := 2,
    tolerance := 3/2, timeout := none, clock := fun k => 5 * k,
    pv := fun _ => 200, setpoint := 200, custom := none }

/-- A configuration with save_interval < log_interval, both accepted by the
constructor: floor(save_interval / log_interval) = floor(5/60) = 0. -/
def cfgZero : WaitCfg :=
  { save_log := true, save_interval := 5, log_interval := 60, n := 10,
    tolerance := 3/2, timeout := none, clock := fun k => 60 * k,
    pv := fun _ => 0, setpoint := 200, custom := none }

/-- A fixed sample row for concrete register_state runs. -/
def sampleA : Sample := ⟨0, 1999/10, 371/2⟩

/-
Theorems.  Helper lemmas come first; each claim's theorem carries a doc
comment naming the claim.
-/

/-- Python round agrees with the identity on integers. -/
theorem pyRound_intCast (z : ℤ) : pyRound (z : ℚ) = z := by
  simp [pyRound]

/-- Python abs coincides with the lattice absolute value on ℚ. -/
theorem pyAbs_eq_abs (q : ℚ) : pyAbs q = |q| := by
  unfold pyAbs
  rcases lt_or_le q 0 with h | h
  · rw [if_pos h, abs_of_neg h]
  · rw [if_neg (not_lt.mpr h), abs_of_nonneg h]

/-- TemporalData.tail returns min n (store length) records. -/
theorem tail_length {α : Type} (n : ℕ) (l : List α) :
    (tail n l).length = min n l.length := by
  simp [tail]
  omega

/-- Claim C1: for every non-negative integer exponent d and every raw
register value, decoding raw to a physical value by raw / 10 ** d and
re-encoding by round(value * 10 ** d) returns exactly the original raw
value, in particular within the claimed rounding tolerance of 1 unit. -/
theorem codec_round_trip (raw d : ℕ) :
    toRaw (toPhysical raw d) d = (raw : ℤ) ∧
    |toRaw (toPhysical raw d) d - (raw : ℤ)| ≤ 1 := by
  have h10 : ((10 : ℚ)) ^ d ≠ 0 := pow_ne_zero d (by norm_num)
  have h1 : toPhysical raw d * 10 ^ d = (((raw : ℤ) : ℚ)) := by
    unfold toPhysical
    rw [div_mul_cancel₀ _ h10]
    push_cast
    ring
  have h2 : toRaw (toPhysical raw d) d = (raw : ℤ) := by
    unfold toRaw
    rw [h1, pyRound_intCast]
  refine ⟨h2, ?_⟩
  rw [h2]
  simp

/-- Claim C3: the default stability predicate holds iff every one of the
given process values pv satisfies |pv - setpoint| < tolerance (strict);
with n=3, tolerance=1.5, setpoint=200.0 it is true on process values
[199.0, 200.8, 199.9] and false on [199.0, 202.0, 199.9]. -/
theorem is_stable_spec (times temps : List ℚ) (tolerance setpoint : ℚ) :
    (is_stable times temps tolerance setpoint = true ↔
      ∀ pv ∈ temps, |pv - setpoint| < tolerance) ∧
    is_stable [0, 5, 10] [199, 1004/5, 1999/10] (3/2) 200 = true ∧
    is_stable [0, 5, 10] [199, 202, 1999/10] (3/2) 200 = false := by
  refine ⟨?_, by with_unfolding_all rfl, by with_unfolding_all rfl⟩
  simp [is_stable, List.all_eq_true, pyAbs_eq_abs]

/-- Witness for C3: the biconditional applied at the spec scenario. -/
theorem is_stable_spec_witness :
    is_stable [0, 5, 10] [199, 1004/5, 1999/10] (3/2) 200 = true ∧
    |(199 : ℚ) - 200| < 3/2 := by
  have h := is_stable_spec [0, 5, 10] [199, 1004/5, 1999/10] (3/2) 200
  exact ⟨h.2.1, h.1.mp h.2.1 199 (by simp)⟩

/-- Claim C2: write_setpoint reads the decimal-point register for the
exponent d, then writes round(value * 10 ** d) to the setpoint register,
then appends exactly one command record with text
"Set setpoint to {value:.2f}°C" — in that order. -/
theorem write_setpoint_spec (st : PidState) (value : ℚ)
    (h1 : st.mb.readFail ADDRESS_DECP = none)
    (h2 : st.mb.writeFail ADDRESS_SP = none) :
    write_setpoint st value = Except.ok
      { mb := st.mb
        events := st.events ++
          [PidEvent.regRead ADDRESS_DECP,
           PidEvent.regWrite ADDRESS_SP [toRaw value (st.mb.regs ADDRESS_DECP)],
           PidEvent.command ("Set setpoint to " ++ fmt_fixed2 value ++ "°C")] } := by
  have hs : Commands_set_setpoint ++ " to " = "Set setpoint to " := rfl
  unfold write_setpoint executeRead executeWrite _register_command toRaw
  rw [h1]
  simp only []
  rw [h2]
  simp only []
  rw [hs]
  simp [List.append_assoc]

/-- Witness for C2: with d = 1 the raw value written for 185.5 is 1855 and
the command text is "Set setpoint to 185.50°C". -/
theorem write_setpoint_spec_witness :
    (okState.mb.readFail ADDRESS_DECP = none ∧
     okState.mb.writeFail ADDRESS_SP = none) ∧
    write_setpoint okState (371/2) = Except.ok
      { mb := okState.mb
        events := [PidEvent.regRead 136, PidEvent.regWrite 55 [1855],
          PidEvent.command "Set setpoint to 185.50°C"] } :=
  ⟨⟨rfl, rfl⟩, by
    have h := write_setpoint_spec okState (371/2) rfl rfl
    rw [h]
    with_unfolding_all rfl⟩

/-- Claim C4: in every wait_until_stable run, the stability predicate
(default or custom) is only ever evaluated on a store holding at least n
samples, so the routine cannot return true from a buffer shorter than n. -/
theorem wait_short_buffer (cfg : WaitCfg) (fuel : ℕ) :
    ∀ (k : ℕ) (store : List Sample) (evals : List ℕ)
      (res : Option Bool × List Sample × List ℕ),
      (∀ L ∈ evals, cfg.n ≤ L) →
      wait_until_stable cfg fuel k store evals = Except.ok res →
      (∀ L ∈ res.2.2, cfg.n ≤ L) ∧ (res.1 = some true → cfg.n ≤ res.2.1.length) := by
  induction fuel with
  | zero =>
    intro k store evals res h0 h
    simp only [wait_until_stable, Except.ok.injEq] at h
    subst h
    exact ⟨h0, by simp⟩
  | succ fuel ih =>
    intro k store evals res h0 h
    simp only [wait_until_stable] at h
    by_cases ht : timeout_exceeded cfg k = true
    · rw [if_pos ht] at h
      simp only [Except.ok.injEq] at h
      subst h
      exact ⟨h0, by simp⟩
    · rw [if_neg ht] at h
      rcases hreg : register_state cfg.save_log cfg.save_interval cfg.log_interval store
          ⟨((cfg.clock k : ℕ) : ℚ), cfg.pv k, cfg.setpoint⟩ with e | p
      · rw [hreg] at h
        simp at h
      · rw [hreg] at h
        obtain ⟨st, fired⟩ := p
        simp only [] at h
        by_cases hlt : ((tail cfg.n st).map Sample.time_s).length < cfg.n
        · rw [if_pos hlt] at h
          exact ih (k+1) st evals res h0 h
        · rw [if_neg hlt] at h
          have hn : cfg.n ≤ st.length := by
            rw [List.length_map, tail_length] at hlt
            omega
          by_cases hst : stable_check cfg ((tail cfg.n st).map Sample.time_s)
              ((tail cfg.n st).map Sample.pv) = true
          · rw [if_pos hst] at h
            simp only [Except.ok.injEq] at h
            subst h
            refine ⟨?_, fun _ => hn⟩
            intro L hL
            rcases List.mem_append.mp hL with hL | hL
            · exact h0 L hL
            · have hL2 := List.mem_singleton.mp hL
              rw [hL2]
              exact hn
          · rw [if_neg hst] at h
            refine ih (k+1) st (evals ++ [st.length]) res ?_ h
            intro L hL
            rcases List.mem_append.mp hL with hL | hL
            · exact h0 L hL
            · have hL2 := List.mem_singleton.mp hL
              rw [hL2]
              exact hn

/-- Witness for C4: a concrete stabilizing run with n = 2; the single
predicate evaluation happens at store length 2. -/
theorem wait_short_buffer_witness :
    (∀ L ∈ ([] : List ℕ), cfgStable.n ≤ L) ∧
    ((∀ L ∈ [2], cfgStable.n ≤ L) ∧
      ((some true : Option Bool) = some true →
        cfgStable.n ≤ [(⟨0, 200, 200⟩ : Sample), ⟨5, 200, 200⟩].length)) :=
  ⟨by simp, wait_short_buffer cfgStable 5 0 [] []
    (some true, [⟨0, 200, 200⟩, ⟨5, 200, 200⟩], [2]) (by simp)
    (by with_unfolding_all rfl)⟩

/-- Claim C5: with logging enabled, register_state appends the sample and
the save checkpoint fires exactly when
recordCount % (save_interval / log_interval) == 0, recordCount ≥ 1 being
the record count after the append. -/
theorem save_checkpoint_fires (save_interval log_interval : ℕ) (store : List Sample)
    (s : Sample) (h : save_interval / log_interval ≠ 0) :
    register_state true save_interval log_interval store s =
      Except.ok (store ++ [s],
        decide ((store.length + 1) % (save_interval / log_interval) = 0)) ∧
    1 ≤ store.length + 1 := by
  constructor
  · unfold register_state
    rw [if_neg h]
    simp
  · omega

/-- Witness for C5: defaults save_interval=60, log_interval=5; the 12th
append fires the checkpoint. -/
theorem save_checkpoint_fires_witness :
    ((60 : ℕ) / 5 ≠ 0) ∧
    (register_state true 60 5 (List.replicate 11 sampleA) sampleA =
      Except.ok (List.replicate 11 sampleA ++ [sampleA],
        decide (((List.replicate 11 sampleA : List Sample).length + 1) % (60 / 5) = 0)) ∧
      1 ≤ (List.replicate 11 sampleA : List Sample).length + 1) :=
  ⟨by decide, save_checkpoint_fires 60 5 (List.replicate 11 sampleA) sampleA (by decide)⟩

/-- Claim C6 counterexample: with timeout=10, log_interval=5, a
never-stable process value and a zero-overhead clock (truncated elapsed
time exactly 5k at the k-th boundary), the run performs THREE sampling
iterations, not two: the check at the third boundary compares 10 > 10,
which fails, so a third sample is appended and the loop only returns false
at the fourth boundary. -/
theorem wait_timeout_two_iterations_cex :
    wait_until_stable cfgTimeout 10 0 [] [] =
      Except.ok (some false, [⟨0, 0, 200⟩, ⟨5, 0, 200⟩, ⟨10, 0, 200⟩], [3]) ∧
    ([(⟨0, 0, 200⟩ : Sample), ⟨5, 0, 200⟩, ⟨10, 0, 200⟩].length = 3 ∧ (3 : ℕ) ≠ 2) :=
  ⟨by with_unfolding_all rfl, by simp⟩

/-- Claim C6 amended: with timeout=10 and log_interval=5, if stability is
never reached and per-iteration overhead never accumulates to a full
second (truncated elapsed time 5k at boundary k), exactly three sampling
iterations occur before the timeout check fails the loop at the fourth
iteration boundary and the routine returns false — the truncated elapsed
10 at the third boundary is not strictly greater than the timeout 10.
Only if sampling overhead pushed the truncated elapsed time at the third
boundary past 10 would exactly two iterations occur. -/
theorem wait_timeout_three_iterations (fuel : ℕ) :
    wait_until_stable cfgTimeout (fuel + 4) 0 [] [] =
      Except.ok (some false, [⟨0, 0, 200⟩, ⟨5, 0, 200⟩, ⟨10, 0, 200⟩], [3]) := by
  with_unfolding_all rfl

/-- Claim C7 counterexample: a transport exception raised inside
read_setpoint propagates to the caller raw, not wrapped as a
GefranPidError. -/
theorem transport_leak_cex :
    read_setpoint badState = Except.error (PidError.transport "modbus timeout") ∧
    isGefran (read_setpoint badState) = false :=
  ⟨rfl, rfl⟩

/-- Claim C7 amended: only connect() and disconnect() wrap transport
exceptions as the domain-specific GefranPidError; the register operations
read_setpoint, write_setpoint and read_process_value have no handler and
propagate transport exceptions raw. -/
theorem error_wrapping_boundary (s : Session) (st : PidState) (value : ℚ) (e : String)
    (h : st.mb.readFail ADDRESS_DECP = some e) :
    connect s false = Except.error (PidError.gefran connectErrMsg) ∧
    disconnect s false = Except.error (PidError.gefran disconnectErrMsg) ∧
    read_setpoint st = Except.error (PidError.transport e) ∧
    write_setpoint st value = Except.error (PidError.transport e) ∧
    read_process_value st = Except.error (PidError.transport e) := by
  refine ⟨rfl, rfl, ?_, ?_, ?_⟩
  · unfold read_setpoint executeRead
    rw [h]
  · unfold write_setpoint executeRead
    rw [h]
  · unfold read_process_value executeRead
    rw [h]

/-- Witness for C7 amended: concrete faulty transport. -/
theorem error_wrapping_boundary_witness :
    (badState.mb.readFail ADDRESS_DECP = some "modbus timeout") ∧
    (connect newSession false = Except.error (PidError.gefran connectErrMsg) ∧
     disconnect newSession false = Except.error (PidError.gefran disconnectErrMsg) ∧
     read_setpoint badState = Except.error (PidError.transport "modbus timeout") ∧
     write_setpoint badState (371/2) = Except.error (PidError.transport "modbus timeout") ∧
     read_process_value badState = Except.error (PidError.transport "modbus timeout")) :=
  ⟨rfl, error_wrapping_boundary newSession badState (371/2) "modbus timeout" rfl⟩

/-- Claim C8 counterexample: the constructor itself calls connect(), so
after a successful construction — with no explicit connect() call by the
caller — the transport is already open and an exit hook is already
registered. -/
theorem constructor_connects_cex :
    initPid true = Except.ok { modbusOpen := true, exitHooks := 1 } ∧
    initPid true ≠ Except.ok { modbusOpen := false, exitHooks := 0 } :=
  ⟨rfl, by simp [initPid, connect, newSession]⟩

/-- Claim C8 amended: connect() is the sole operation that opens the
transport and registers the close-on-exit hook, and a session is unopened
only in the pre-connect state — but Pid.__init__ ends by calling connect()
itself, so a constructed object is already connected. -/
theorem connect_opens_and_registers (s : Session) (openOk : Bool) :
    initPid openOk = connect newSession openOk ∧
    newSession.modbusOpen = false ∧
    newSession.exitHooks = 0 ∧
    connect s true = Except.ok { modbusOpen := true, exitHooks := s.exitHooks + 1 } ∧
    connect s false = Except.error (PidError.gefran connectErrMsg) :=
  ⟨rfl, rfl, rfl, rfl, rfl⟩

/-- Claim C9: the event traces of the three register read/write sequences
on a healthy device contain the scale-then-value register accesses and no
lock acquisition at all — self._lock is created in __init__ but never
acquired, contradicting the claimed mutual exclusion. -/
theorem register_ops_never_acquire_lock :
    read_setpoint okState = Except.ok ((371/2 : ℚ),
      ⟨okMB, [PidEvent.regRead 136, PidEvent.regRead 55]⟩) ∧
    write_setpoint okState (371/2) = Except.ok
      ⟨okMB, [PidEvent.regRead 136, PidEvent.regWrite 55 [1855],
        PidEvent.command "Set setpoint to 185.50°C"]⟩ ∧
    read_process_value okState = Except.ok ((1999/10 : ℚ),
      ⟨okMB, [PidEvent.regRead 136, PidEvent.regRead 0]⟩) ∧
    countLockAcquires [PidEvent.regRead 136, PidEvent.regRead 55] = 0 ∧
    countLockAcquires [PidEvent.regRead 136, PidEvent.regWrite 55 [1855],
      PidEvent.command "Set setpoint to 185.50°C"] = 0 ∧
    countLockAcquires [PidEvent.regRead 136, PidEvent.regRead 0] = 0 := by
  refine ⟨?_, ?_, ?_, by decide, by decide, by decide⟩ <;> with_unfolding_all rfl

/-- Claim C10: when floor(save_interval / log_interval) = 0 (that is,
save_interval < log_interval, both accepted by the constructor), every
register_state call raises ZeroDivisionError at the save-checkpoint
condition, so both the background polling loop and wait_until_stable fail
on their first sample. -/
theorem div_zero_on_short_save_interval (save_log : Bool)
    (save_interval log_interval : ℕ) (store store2 : List Sample) (s : Sample)
    (pv : ℕ → ℚ) (sp : ℚ) (cfg : WaitCfg) (fuel fuel2 k k2 : ℕ) (evals : List ℕ)
    (h : save_interval / log_interval = 0)
    (hcfg : cfg.save_interval / cfg.log_interval = 0)
    (ht : timeout_exceeded cfg k2 = false) :
    register_state save_log save_interval log_interval store s =
      Except.error "ZeroDivisionError" ∧
    run save_log save_interval log_interval pv sp (fuel + 1) k store =
      Except.error "ZeroDivisionError" ∧
    wait_until_stable cfg (fuel2 + 1) k2 store2 evals =
      Except.error "ZeroDivisionError" := by
  have hr : ∀ (st : List Sample) (smp : Sample),
      register_state save_log save_interval log_interval st smp =
        Except.error "ZeroDivisionError" := by
    intro st smp
    unfold register_state
    rw [if_pos h]
  have hrc : ∀ (st : List Sample) (smp : Sample),
      register_state cfg.save_log cfg.save_interval cfg.log_interval st smp =
        Except.error "ZeroDivisionError" := by
    intro st smp
    unfold register_state
    rw [if_pos hcfg]
  refine ⟨hr store s, ?_, ?_⟩
  · simp [run, hr]
  · simp [wait_until_stable, ht, hrc]

/-- Witness for C10: save_interval=5 < log_interval=60, their floored
quotient is 0, and all three entry points raise ZeroDivisionError. -/
theorem div_zero_witness :
    ((5 : ℕ) / 60 = 0 ∧ cfgZero.save_interval / cfgZero.log_interval = 0 ∧
      timeout_exceeded cfgZero 0 = false) ∧
    (register_state true 5 60 [] sampleA = Except.error "ZeroDivisionError" ∧
     run true 5 60 (fun _ => 0) 200 1 0 [] = Except.error "ZeroDivisionError" ∧
     wait_until_stable cfgZero 1 0 [] [] = Except.error "ZeroDivisionError") :=
  ⟨⟨by decide, by decide, rfl⟩,
    div_zero_on_short_save_interval true 5 60 [] [] sampleA (fun _ => 0) 200 cfgZero
      0 0 0 0 [] (by decide) (by decide) rfl⟩

end GefranPid
